import Mathlib

/-!
# Display/context manager (`neo/sys/glimp.cpp`)

A shallow embedding of the SDL window/GL-context shim of the engine:
`GLimp_Init`, `GLimp_SetScreenParms`, `GLimp_Shutdown`, `GLimp_SwapBuffers`,
`GLimp_SetGamma` and `GLimp_GrabInput`.

* Handles (`SDL_Window *`, `SDL_GLContext`) are natural numbers, `0` is `NULL`.
* The three file-level statics (`window`, `context`, `grabbed`) and the fields
  of `glConfig` written by this file form the explicit `State`.
* Every call to the host library and every console message is recorded, in
  program order, in the list of `Event`s a function returns next to the new
  state.
* The answers of the host library and the values of the configuration
  variables are the fields of `Host`; the answer to the `n`-th
  `SDL_CreateWindow` call of one `GLimp_Init` is `createWindow n`.
* `assert(SDL_WasInit(SDL_INIT_VIDEO))` is a precondition of the calls that
  carry it; the functions below describe calls that satisfy it.
-/

namespace GLimp

/-! ## Constants and build switches declared outside `glimp.cpp` -/

/-- Values of the constants the file takes from headers that are not part of
the sources (SDL window flags, the GL profile constant, the grab flag bits). -/
structure Consts where
  SDL_WINDOW_OPENGL : Nat
  SDL_WINDOW_FULLSCREEN : Nat
  SDL_GL_CONTEXT_PROFILE_ES : Int
  GRAB_ENABLE : Nat
  GRAB_REENABLE : Nat
  GRAB_HIDECURSOR : Nat
  GRAB_SETSTATE : Nat

/-- Preprocessor switches tested by the file. -/
structure Build where
  EMSCRIPTEN : Bool
  WEBGL : Bool

/-- Constants together with the build switches: fixed for a given binary. -/
structure Cfg where
  consts : Consts
  build : Build

/-- Modelled from the spec: the flag bits of the `GrabInput` bitset (ENABLE,
REENABLE, HIDECURSOR, SETSTATE) and the SDL window flags, whose declaring
headers are not among the sources; four distinct bits, with the SDL2 values
for the window flags and the ES profile. -/
def stdConsts : Consts where
  SDL_WINDOW_OPENGL := 2
  SDL_WINDOW_FULLSCREEN := 1
  SDL_GL_CONTEXT_PROFILE_ES := 4
  GRAB_ENABLE := 1
  GRAB_REENABLE := 2
  GRAB_HIDECURSOR := 4
  GRAB_SETSTATE := 8

/-- The browser build: both `__EMSCRIPTEN__` and `WEBGL` defined. -/
def wasmCfg : Cfg := ⟨stdConsts, ⟨true, true⟩⟩

/-- A desktop build: neither switch defined. -/
def nativeCfg : Cfg := ⟨stdConsts, ⟨false, false⟩⟩

/-! ## Data model -/

/-- Modelled from the spec: the parameter record of `Init` (requested width,
height, fullscreen flag, stereo flag, multisample count); `glimpParms_t` is
declared in a header that is not among the sources. -/
structure glimpParms_t where
  width : Int
  height : Int
  fullScreen : Bool
  stereo : Bool
  multiSamples : Int
deriving DecidableEq, Repr

/-- The fields of `glConfig` this file writes. -/
structure GlConfig where
  vidWidth : Int
  vidHeight : Int
  isFullscreen : Bool
  colorBits : Int
  depthBits : Int
  stencilBits : Int
  displayFrequency : Int
deriving DecidableEq, Repr

/-- The process-wide state owned by the file. -/
structure State where
  window : Nat
  context : Nat
  grabbed : Bool
  glConfig : GlConfig
deriving DecidableEq, Repr

/-- State at program start: `window = NULL`, `context = NULL`,
`grabbed = false`. -/
def State.initial : State := ⟨0, 0, false, ⟨0, 0, false, 0, 0, 0, 0⟩⟩

/-- The `SDL_GL_*` attributes the file sets. -/
inductive GLAttr where
  | RED_SIZE | GREEN_SIZE | BLUE_SIZE | ALPHA_SIZE | DOUBLEBUFFER
  | DEPTH_SIZE | STENCIL_SIZE | STEREO | MULTISAMPLEBUFFERS | MULTISAMPLESAMPLES
  | CONTEXT_PROFILE_MASK | CONTEXT_MAJOR_VERSION | CONTEXT_MINOR_VERSION
deriving DecidableEq, Repr

/-- The console messages of the file (format arguments that are numbers are
kept, the host error string is not). -/
inductive Msg where
  | initializing
  | couldntSetMode (channel depth stencil : Int)
  | swapControlUnsupported
  | usingBits (channel depth stencil : Int)
  | noUsableMode
  | todoActivateContext
  | shuttingDown
  | setGammaNoWindow
  | couldntSetGamma
  | grabInputNoWindow
deriving DecidableEq, Repr

/-- One observable action: a host library call or a console message. -/
inductive Event where
  | printf (m : Msg)
  | dprintf (m : Msg)
  | warning (m : Msg)
  | SDL_GL_SetAttribute (attr : GLAttr) (value : Int)
  | SDL_CreateWindow (width height : Int) (flags : Nat)
  | SDL_GL_CreateContext (window : Nat)
  | SDL_GL_SetSwapInterval (interval : Int)
  | SDL_GetWindowSize (window : Nat)
  | SDL_SetWindowIcon (window : Nat)
  | SDL_GetWindowFlags (window : Nat)
  | SDL_GL_DeleteContext (context : Nat)
  | SDL_DestroyWindow (window : Nat)
  | SDL_GL_SwapWindow (window : Nat)
  | SDL_SetWindowGammaRamp (window : Nat) (red green blue : List Nat)
  | SDL_ShowCursor (enable : Bool)
  | SDL_SetRelativeMouseMode (enabled : Bool)
  | SDL_SetWindowGrab (window : Nat) (grabbed : Bool)
  | SDL_CreateRGBSurfaceFrom
  | SDL_FreeSurface
  | SDL_GetError
deriving DecidableEq, Repr

/-- Console messages are not host calls; everything else is. -/
def Event.isHostCall : Event → Bool
  | .printf _ => false
  | .dprintf _ => false
  | .warning _ => false
  | _ => true

/-- Recognises a warning. -/
def Event.isWarning : Event → Bool
  | .warning _ => true
  | _ => false

/-- Recognises a window-creation attempt. -/
def Event.isCreateWindow : Event → Bool
  | .SDL_CreateWindow _ _ _ => true
  | _ => false

/-- Recognises a host destroy call (`SDL_GL_DeleteContext`,
`SDL_DestroyWindow`). -/
def Event.isDestroy : Event → Bool
  | .SDL_GL_DeleteContext _ => true
  | .SDL_DestroyWindow _ => true
  | _ => false

/-- Answers of the host library and values of the configuration variables
during one call. -/
structure Host where
  /-- Result of the `n`-th `SDL_CreateWindow` of a `GLimp_Init`; `0` is `NULL`. -/
  createWindow : Nat → Nat
  /-- Result of `SDL_GL_CreateContext` on a window; `0` is `NULL`. -/
  createContext : Nat → Nat
  /-- Result of `SDL_GL_SetSwapInterval`. -/
  setSwapInterval : Int → Int
  /-- Result of `SDL_GetWindowSize`. -/
  getWindowSize : Nat → Int × Int
  /-- Result of `SDL_GetWindowFlags`. -/
  getWindowFlags : Nat → Nat
  /-- Result of `SDL_SetWindowGammaRamp`. -/
  setWindowGammaRamp : Nat → Int
  in_nograb : Bool
  r_waylandcompat : Bool
  r_swapInterval : Int

/-! ## `GLimp_Init`: the candidate search -/

/-- The three bit depths `colorbits`, `depthbits`, `stencilbits`. -/
structure Bits where
  colorbits : Int
  depthbits : Int
  stencilbits : Int
deriving DecidableEq, Repr

/-- Component-wise comparison of two triples. -/
def Bits.le (a b : Bits) : Prop :=
  a.colorbits ≤ b.colorbits ∧ a.depthbits ≤ b.depthbits ∧ a.stencilbits ≤ b.stencilbits

instance (a b : Bits) : Decidable (Bits.le a b) := by
  unfold Bits.le; infer_instance

/-- Values of `colorbits`, `depthbits`, `stencilbits` before the loop. -/
def initialBits : Bits := ⟨24, 24, 8⟩

/-- Body of `case 2` of the switch. -/
def reduceColor (b : Bits) : Bits :=
  if b.colorbits = 24 then { b with colorbits := 16 } else b

/-- Body of `case 1` of the switch (up to where it runs into `case 3`). -/
def reduceDepth (b : Bits) : Bits :=
  if b.depthbits = 24 then { b with depthbits := 16 }
  else if b.depthbits = 16 then { b with depthbits := 8 }
  else b

/-- Body of `case 3` of the switch. -/
def reduceStencil (b : Bits) : Bits :=
  if b.stencilbits = 24 then { b with stencilbits := 16 }
  else if b.stencilbits = 16 then { b with stencilbits := 8 }
  else b

/-- The block `if ((i % 4) == 0 && i) switch (i / 4)`: `case 2` ends in
`break`, `case 1` has no `break` and runs into `case 3`. -/
def reduceBaseline (i : Nat) (b : Bits) : Bits :=
  if i % 4 = 0 ∧ i ≠ 0 then
    match i / 4 with
    | 2 => reduceColor b
    | 1 => reduceStencil (reduceDepth b)
    | 3 => reduceStencil b
    | _ => b
  else b

/-- The values `tcolorbits`, `tdepthbits`, `tstencilbits` of attempt `i`,
from the baseline `b` in force at that attempt. -/
def attemptBits (i : Nat) (b : Bits) : Bits :=
  let tcolorbits := b.colorbits
  let tdepthbits := b.depthbits
  let tstencilbits := b.stencilbits
  let tcolorbits :=
    if i % 4 = 3 then (if tcolorbits = 24 then 16 else tcolorbits) else tcolorbits
  let tdepthbits :=
    if i % 4 = 2 then
      (if tdepthbits = 24 then 16 else if tdepthbits = 16 then 8 else tdepthbits)
    else tdepthbits
  let tstencilbits :=
    if i % 4 = 1 then
      (if tstencilbits = 24 then 16 else if tstencilbits = 16 then 8 else 0)
    else tstencilbits
  ⟨tcolorbits, tdepthbits, tstencilbits⟩

/-- The value of `channelcolorbits` for a given `tcolorbits`. -/
def channelColorBits (tcolorbits : Int) : Int :=
  if tcolorbits = 24 then 8 else 4

/-- The `SDL_GL_SetAttribute` calls that precede `SDL_CreateWindow`. -/
def formatAttributes (c : Cfg) (h : Host) (parms : glimpParms_t) (t : Bits) : List Event :=
  let channelcolorbits := channelColorBits t.colorbits
  [ .SDL_GL_SetAttribute .RED_SIZE channelcolorbits,
    .SDL_GL_SetAttribute .GREEN_SIZE channelcolorbits,
    .SDL_GL_SetAttribute .BLUE_SIZE channelcolorbits,
    .SDL_GL_SetAttribute .DOUBLEBUFFER 1,
    .SDL_GL_SetAttribute .DEPTH_SIZE t.depthbits,
    .SDL_GL_SetAttribute .STENCIL_SIZE t.stencilbits,
    (if !c.build.EMSCRIPTEN && h.r_waylandcompat then
      .SDL_GL_SetAttribute .ALPHA_SIZE 0
    else
      .SDL_GL_SetAttribute .ALPHA_SIZE channelcolorbits),
    .SDL_GL_SetAttribute .STEREO (if parms.stereo then 1 else 0),
    .SDL_GL_SetAttribute .MULTISAMPLEBUFFERS (if parms.multiSamples ≠ 0 then 1 else 0),
    .SDL_GL_SetAttribute .MULTISAMPLESAMPLES parms.multiSamples ]

/-- Host calls of `SetSDLIcon`: none on Emscripten; otherwise the icon
surface is created, set on the window and freed. -/
def SetSDLIcon (c : Cfg) (s : State) : List Event :=
  if c.build.EMSCRIPTEN then []
  else [.SDL_CreateRGBSurfaceFrom, .SDL_SetWindowIcon s.window, .SDL_FreeSurface]

/-- What the loop body does after `SDL_CreateWindow` returned the non-null
window stored in `s.window`, up to the `break`. -/
def windowCreated (c : Cfg) (h : Host) (t : Bits) (s : State) : State × List Event :=
  let channelcolorbits := channelColorBits t.colorbits
  let context := h.createContext s.window
  let size := h.getWindowSize s.window
  let wflags := h.getWindowFlags s.window
  let s1 : State :=
    { s with
      context := context
      glConfig :=
        { vidWidth := size.1
          vidHeight := size.2
          isFullscreen :=
            decide (wflags &&& c.consts.SDL_WINDOW_FULLSCREEN = c.consts.SDL_WINDOW_FULLSCREEN)
          colorBits := t.colorbits
          depthBits := t.depthbits
          stencilBits := t.stencilbits
          displayFrequency := 0 } }
  (s1,
    [ .SDL_GL_SetAttribute .CONTEXT_PROFILE_MASK c.consts.SDL_GL_CONTEXT_PROFILE_ES,
      .SDL_GL_SetAttribute .CONTEXT_MAJOR_VERSION 2,
      .SDL_GL_SetAttribute .CONTEXT_MINOR_VERSION 0,
      .SDL_GL_CreateContext s.window ]
    ++ (if c.build.WEBGL then []
        else
          .SDL_GL_SetSwapInterval h.r_swapInterval ::
            (if h.setSwapInterval h.r_swapInterval < 0 then
              [.warning .swapControlUnsupported] else []))
    ++ [.SDL_GetWindowSize s.window]
    ++ SetSDLIcon c s
    ++ [ .SDL_GetWindowFlags s.window,
         .printf (.usingBits channelcolorbits t.depthbits t.stencilbits) ])

/-- The loop `for (int i = 0; i < 16; i++)` from index `i` on, with `n`
iterations left (`n = 16 - i`) and `b` the baseline left by the previous
iteration. A rejected attempt is the `continue`, an accepted one the
`break`. -/
def initLoop (c : Cfg) (h : Host) (parms : glimpParms_t) (flags : Nat) :
    Nat → Nat → Bits → State → State × List Event
  | 0, _, _, s => (s, [])
  | n + 1, i, b, s =>
    let b1 := reduceBaseline i b
    let t := attemptBits i b1
    let pre := formatAttributes c h parms t ++ [.SDL_CreateWindow parms.width parms.height flags]
    let s1 : State := { s with window := h.createWindow i }
    if s1.window = 0 then
      let r := initLoop c h parms flags n (i + 1) b1 s1
      (r.1, pre ++ .SDL_GetError ::
              .dprintf (.couldntSetMode (channelColorBits t.colorbits) t.depthbits
                t.stencilbits) :: r.2)
    else
      let r := windowCreated c h t s1
      (r.1, pre ++ r.2)

/-- The window flags `GLimp_Init` passes to `SDL_CreateWindow`. -/
def initFlags (c : Cfg) (parms : glimpParms_t) : Nat :=
  if parms.fullScreen then c.consts.SDL_WINDOW_OPENGL ||| c.consts.SDL_WINDOW_FULLSCREEN
  else c.consts.SDL_WINDOW_OPENGL

/-- Embedding of `GLimp_Init`: return value, new state, events. -/
def GLimp_Init (c : Cfg) (h : Host) (parms : glimpParms_t) (s : State) :
    Bool × State × List Event :=
  let r := initLoop c h parms (initFlags c parms) 16 0 initialBits s
  if r.1.window = 0 then
    (false, r.1, .printf .initializing :: r.2 ++ [.SDL_GetError, .warning .noUsableMode])
  else
    (true, r.1, .printf .initializing :: r.2)

/-- The baseline triple in force during attempt `i`, that is the values of
`colorbits`, `depthbits`, `stencilbits` after the reduction block of
iteration `i`, all earlier attempts having been rejected. -/
def baselineAt : Nat → Bits
  | 0 => reduceBaseline 0 initialBits
  | i + 1 => reduceBaseline (i + 1) (baselineAt i)

/-- The triple (`tcolorbits`, `tdepthbits`, `tstencilbits`) of attempt `i`. -/
def candidateAt (i : Nat) : Bits := attemptBits i (baselineAt i)

/-! ## The other operations -/

/-- Embedding of `GLimp_SetScreenParms`: a stub that reports success. -/
def GLimp_SetScreenParms (_parms : glimpParms_t) (s : State) : Bool × State × List Event :=
  (true, s, [.dprintf .todoActivateContext])

/-- Embedding of `GLimp_Shutdown`. -/
def GLimp_Shutdown (s : State) : State × List Event :=
  let r1 : State × List Event :=
    if s.context ≠ 0 then
      ({ s with context := 0 }, [.SDL_GL_DeleteContext s.context])
    else (s, [])
  let r2 : State × List Event :=
    if r1.1.window ≠ 0 then
      ({ r1.1 with window := 0 }, [.SDL_DestroyWindow r1.1.window])
    else (r1.1, [])
  (r2.1, .printf .shuttingDown :: r1.2 ++ r2.2)

/-- Embedding of `GLimp_SwapBuffers`: nothing under `WEBGL`. -/
def GLimp_SwapBuffers (c : Cfg) (s : State) : State × List Event :=
  if c.build.WEBGL then (s, []) else (s, [.SDL_GL_SwapWindow s.window])

/-- Embedding of `GLimp_SetGamma`. -/
def GLimp_SetGamma (c : Cfg) (h : Host) (red green blue : List Nat) (s : State) :
    State × List Event :=
  if s.window = 0 then
    (s, [.warning .setGammaNoWindow])
  else if c.build.WEBGL then
    (s, [])
  else
    (s, .SDL_SetWindowGammaRamp s.window red green blue ::
          (if h.setWindowGammaRamp s.window ≠ 0 then
            [.SDL_GetError, .warning .couldntSetGamma] else []))

/-- The value of the local `grab` of `GLimp_GrabInput` after the first two
statements: `flags & GRAB_ENABLE`, cleared when `GRAB_REENABLE` is set too. -/
def requestedGrab (c : Cfg) (flags : Nat) : Bool :=
  let grab := decide (flags &&& c.consts.GRAB_ENABLE ≠ 0)
  if grab && decide (flags &&& c.consts.GRAB_REENABLE ≠ 0) then false else grab

/-- Embedding of `GLimp_GrabInput`. -/
def GLimp_GrabInput (c : Cfg) (h : Host) (flags : Nat) (s : State) : State × List Event :=
  let grab := requestedGrab c flags
  let s1 : State :=
    if flags &&& c.consts.GRAB_SETSTATE ≠ 0 then { s with grabbed := grab } else s
  let grab := if h.in_nograb then false else grab
  if s1.window = 0 then
    (s1, [.warning .grabInputNoWindow])
  else
    let hide := decide (flags &&& c.consts.GRAB_HIDECURSOR ≠ 0)
    (s1,
      [ .SDL_ShowCursor (!hide),
        .SDL_SetRelativeMouseMode (grab && hide),
        .SDL_SetWindowGrab s1.window grab ])

/-! ## Sequences of calls -/

/-- One call of the rendering engine into the component. -/
inductive Call where
  | Init (parms : glimpParms_t)
  | SetScreenParms (parms : glimpParms_t)
  | Shutdown
  | SwapBuffers
  | SetGamma (red green blue : List Nat)
  | GrabInput (flags : Nat)

/-- State after one call made under host behaviour `h`. -/
def step (c : Cfg) (h : Host) (call : Call) (s : State) : State :=
  match call with
  | .Init parms => (GLimp_Init c h parms s).2.1
  | .SetScreenParms parms => (GLimp_SetScreenParms parms s).2.1
  | .Shutdown => (GLimp_Shutdown s).1
  | .SwapBuffers => (GLimp_SwapBuffers c s).1
  | .SetGamma red green blue => (GLimp_SetGamma c h red green blue s).1
  | .GrabInput flags => (GLimp_GrabInput c h flags s).1

/-- State after a sequence of calls, each under its own host behaviour. -/
def run (c : Cfg) : List (Host × Call) → State → State
  | [], s => s
  | (h, call) :: rest, s => run c rest (step c h call s)

/-- Every `Init` of the sequence is called while the context handle is
null. -/
def InitOnFreshContext (c : Cfg) : List (Host × Call) → State → Prop
  | [], _ => True
  | (h, call) :: rest, s =>
    (match call with
      | .Init _ => s.context = 0
      | _ => True) ∧ InitOnFreshContext c rest (step c h call s)

/-- The data-model invariant: a non-null context has a non-null window. -/
def ContextHasWindow (s : State) : Prop := s.context ≠ 0 → s.window ≠ 0

/-! ## Host behaviours used in examples -/

/-- A host that accepts window creation at attempt `k` only (handle `1`) and
creates context `2` for it. -/
def acceptAt (k : Nat) : Host where
  createWindow := fun i => if i = k then 1 else 0
  createContext := fun _ => 2
  setSwapInterval := fun _ => 0
  getWindowSize := fun _ => (640, 480)
  getWindowFlags := fun _ => 2
  setWindowGammaRamp := fun _ => 0
  in_nograb := false
  r_waylandcompat := false
  r_swapInterval := 0

/-- A host that rejects every window creation. -/
def rejectAll : Host := { acceptAt 0 with createWindow := fun _ => 0 }

/-- A host that creates the first window but no context for it. -/
def noContext : Host := { acceptAt 0 with createContext := fun _ => 0 }

/-- A host with the no-grab override switched on. -/
def noGrab : Host := { acceptAt 0 with in_nograb := true }

/-- A 640x480 windowed request. -/
def parms0 : glimpParms_t := ⟨640, 480, false, false, 0⟩

/-- A state in which a window `1` and a context `2` are live. -/
def live (grabbed : Bool) : State := { State.initial with window := 1, context := 2, grabbed := grabbed }

/-! ## Lemmas on the candidate search -/

/-- Baseline handed over by the iterations before index `i`. -/
def baselineBefore : Nat → Bits
  | 0 => initialBits
  | i + 1 => baselineAt i

theorem reduceBaseline_baselineBefore (i : Nat) :
    reduceBaseline i (baselineBefore i) = baselineAt i := by
  cases i <;> rfl

theorem countP_formatAttributes (c : Cfg) (h : Host) (parms : glimpParms_t) (t : Bits) :
    (formatAttributes c h parms t).countP Event.isCreateWindow = 0 := by
  simp only [formatAttributes]
  split <;> simp [Event.isCreateWindow]

theorem countP_windowCreated (c : Cfg) (h : Host) (t : Bits) (s : State) :
    (windowCreated c h t s).2.countP Event.isCreateWindow = 0 := by
  simp only [windowCreated, SetSDLIcon, List.countP_append]
  split <;> split <;> (try split) <;> simp [Event.isCreateWindow]

/-- When every remaining attempt is rejected the loop ends with a null
window and has touched nothing else. -/
theorem initLoop_rejected (c : Cfg) (h : Host) (parms : glimpParms_t) (flags : Nat) :
    ∀ (n i : Nat) (b : Bits) (s : State), s.window = 0 →
      (∀ j, i ≤ j → j < i + n → h.createWindow j = 0) →
      (initLoop c h parms flags n i b s).1 = s := by
  intro n
  induction n with
  | zero => intro i b s _ _; rfl
  | succ n ih =>
    intro i b s hw hrej
    have hi : h.createWindow i = 0 := hrej i (le_refl i) (by omega)
    have hs : ({ s with window := h.createWindow i } : State) = s := by
      cases s; simp_all
    simp only [initLoop, hi, if_true]
    have := ih (i + 1) (reduceBaseline i b) s hw (fun j h1 h2 => hrej j (by omega) (by omega))
    simpa [← hw] using this

/-- When attempts `i .. k-1` are rejected and attempt `k` is accepted, the
loop stops at `k` with the triple of candidate `k`, after `k + 1 - i`
window-creation attempts. -/
theorem initLoop_accepted (c : Cfg) (h : Host) (parms : glimpParms_t) (flags : Nat) (k : Nat)
    (hacc : h.createWindow k ≠ 0) :
    ∀ (n i : Nat) (s : State), i ≤ k → k < i + n →
      (∀ j, i ≤ j → j < k → h.createWindow j = 0) →
      (initLoop c h parms flags n i (baselineBefore i) s).1 =
          (windowCreated c h (candidateAt k) { s with window := h.createWindow k }).1 ∧
        (initLoop c h parms flags n i (baselineBefore i) s).2.countP Event.isCreateWindow =
          k + 1 - i := by
  intro n
  induction n with
  | zero => intro i s h1 h2; omega
  | succ n ih =>
    intro i s hik hkn hrej
    rcases Nat.eq_or_lt_of_le hik with heq | hlt
    · subst heq
      simp only [initLoop, hacc, if_false, reduceBaseline_baselineBefore, candidateAt,
        List.countP_append, countP_formatAttributes, countP_windowCreated]
      refine ⟨trivial, ?_⟩
      simp [Event.isCreateWindow]
    · have hi : h.createWindow i = 0 := hrej i (le_refl i) hlt
      have hrec := ih (i + 1) { s with window := 0 } (by omega) (by omega)
        (fun j h1 h2 => hrej j (by omega) h2)
      simp only [initLoop, hi, if_true, reduceBaseline_baselineBefore, List.countP_append,
        countP_formatAttributes, List.countP_cons]
      have hb : baselineAt i = baselineBefore (i + 1) := rfl
      rw [hb]
      refine ⟨hrec.1, ?_⟩
      rw [hrec.2]
      simp [Event.isCreateWindow]
      omega

/-- The context handle is null or the window handle is not, at the end of a
loop entered with a null context. -/
theorem initLoop_contextHasWindow (c : Cfg) (h : Host) (parms : glimpParms_t) (flags : Nat) :
    ∀ (n i : Nat) (b : Bits) (s : State), s.context = 0 →
      ContextHasWindow (initLoop c h parms flags n i b s).1 := by
  intro n
  induction n with
  | zero => intro i b s hc hne; exact absurd hc hne
  | succ n ih =>
    intro i b s hc
    by_cases hi : h.createWindow i = 0
    · simp only [initLoop, hi, if_true]
      exact ih (i + 1) (reduceBaseline i b) { s with window := 0 } hc
    · simp only [initLoop, hi, if_false]
      intro _
      simpa [windowCreated] using hi

theorem GLimp_Init_state (c : Cfg) (h : Host) (parms : glimpParms_t) (s : State) :
    (GLimp_Init c h parms s).2.1 =
      (initLoop c h parms (initFlags c parms) 16 0 initialBits s).1 := by
  simp only [GLimp_Init]
  split <;> rfl

/-- One call keeps the invariant, provided `Init` is entered with a null
context. -/
theorem step_contextHasWindow (c : Cfg) (h : Host) (call : Call) (s : State)
    (hinv : ContextHasWindow s)
    (hfresh : match call with
      | .Init _ => s.context = 0
      | _ => True) :
    ContextHasWindow (step c h call s) := by
  cases call with
  | Init parms =>
    simp only [step, GLimp_Init_state]
    exact initLoop_contextHasWindow c h parms _ 16 0 initialBits s hfresh
  | SetScreenParms parms => exact hinv
  | Shutdown =>
    intro hne
    exfalso
    apply hne
    simp only [step, GLimp_Shutdown]
    split <;> split <;> simp_all
  | SwapBuffers =>
    simp only [step, GLimp_SwapBuffers]
    split <;> exact hinv
  | SetGamma red green blue =>
    simp only [step, GLimp_SetGamma]
    split
    · exact hinv
    · split <;> exact hinv
  | GrabInput flags =>
    simp only [step, GLimp_GrabInput]
    split <;> split <;> simp_all [ContextHasWindow]

theorem run_contextHasWindow (c : Cfg) :
    ∀ (l : List (Host × Call)) (s : State), ContextHasWindow s → InitOnFreshContext c l s →
      ContextHasWindow (run c l s) := by
  intro l
  induction l with
  | nil => intro s hinv _; exact hinv
  | cons hd rest ih =>
    intro s hinv hfresh
    obtain ⟨h, call⟩ := hd
    exact ih _ (step_contextHasWindow c h call s hinv hfresh.1) hfresh.2

/-! ## The claims -/

/-- C1: when `GLimp_Init` is called with the window and context handles both
null and the host rejects window creation for all 16 candidates, it returns
false and both handles are still null afterwards. -/
theorem GLimp_Init_all_rejected (c : Cfg) (h : Host) (parms : glimpParms_t) (s : State)
    (hw : s.window = 0) (hc : s.context = 0)
    (hrej : ∀ i, i < 16 → h.createWindow i = 0) :
    (GLimp_Init c h parms s).1 = false ∧
      (GLimp_Init c h parms s).2.1.window = 0 ∧
      (GLimp_Init c h parms s).2.1.context = 0 := by
  have hl := initLoop_rejected c h parms (initFlags c parms) 16 0 initialBits s hw
    (fun j _ hj => hrej j (by omega))
  refine ⟨?_, ?_, ?_⟩
  · simp [GLimp_Init, hl, hw]
  · rw [GLimp_Init_state, hl]; exact hw
  · rw [GLimp_Init_state, hl]; exact hc

/-- Witness of C1: the host `rejectAll` on the initial state. -/
theorem GLimp_Init_all_rejected_witness :
    (GLimp_Init wasmCfg rejectAll parms0 State.initial).1 = false ∧
      (GLimp_Init wasmCfg rejectAll parms0 State.initial).2.1.window = 0 ∧
      (GLimp_Init wasmCfg rejectAll parms0 State.initial).2.1.context = 0 :=
  GLimp_Init_all_rejected wasmCfg rejectAll parms0 State.initial rfl rfl (fun _ _ => rfl)

/-- C2: when the host rejects window creation for candidates `0 .. k-1` and
accepts candidate `k` (`k < 16`), `GLimp_Init` returns true after exactly
`k + 1` window-creation attempts, the negotiated `colorBits`, `depthBits`,
`stencilBits` are the triple of candidate `k` and `displayFrequency` is 0;
the triple of candidate 0 is (24, 24, 8). -/
theorem GLimp_Init_accepted_at (c : Cfg) (h : Host) (parms : glimpParms_t) (s : State)
    (k : Nat) (hk : k < 16)
    (hrej : ∀ j, j < k → h.createWindow j = 0) (hacc : h.createWindow k ≠ 0) :
    (GLimp_Init c h parms s).1 = true ∧
      (GLimp_Init c h parms s).2.2.countP Event.isCreateWindow = k + 1 ∧
      (GLimp_Init c h parms s).2.1.glConfig.colorBits = (candidateAt k).colorbits ∧
      (GLimp_Init c h parms s).2.1.glConfig.depthBits = (candidateAt k).depthbits ∧
      (GLimp_Init c h parms s).2.1.glConfig.stencilBits = (candidateAt k).stencilbits ∧
      (GLimp_Init c h parms s).2.1.glConfig.displayFrequency = 0 ∧
      candidateAt 0 = ⟨24, 24, 8⟩ := by
  obtain ⟨hst, hcnt⟩ := initLoop_accepted c h parms (initFlags c parms) k hacc 16 0 s
    (Nat.zero_le k) (by omega) (fun j _ hj => hrej j hj)
  have hb : baselineBefore 0 = initialBits := rfl
  rw [hb] at hst hcnt
  have hwin : (initLoop c h parms (initFlags c parms) 16 0 initialBits s).1.window ≠ 0 := by
    rw [hst]; simpa [windowCreated] using hacc
  refine ⟨?_, ?_, ?_, ?_, ?_, ?_, ?_⟩
  · simp [GLimp_Init, hwin]
  · simp only [GLimp_Init, hwin, if_false, List.countP_cons, hcnt]
    simp [Event.isCreateWindow]
  · rw [GLimp_Init_state, hst]; rfl
  · rw [GLimp_Init_state, hst]; rfl
  · rw [GLimp_Init_state, hst]; rfl
  · rw [GLimp_Init_state, hst]; rfl
  · decide

/-- Witness of C2: the host that accepts candidate 5 only. -/
theorem GLimp_Init_accepted_at_witness :
    (GLimp_Init nativeCfg (acceptAt 5) parms0 State.initial).1 = true ∧
      (GLimp_Init nativeCfg (acceptAt 5) parms0 State.initial).2.2.countP
        Event.isCreateWindow = 5 + 1 ∧
      (GLimp_Init nativeCfg (acceptAt 5) parms0 State.initial).2.1.glConfig.colorBits =
        (candidateAt 5).colorbits ∧
      (GLimp_Init nativeCfg (acceptAt 5) parms0 State.initial).2.1.glConfig.depthBits =
        (candidateAt 5).depthbits ∧
      (GLimp_Init nativeCfg (acceptAt 5) parms0 State.initial).2.1.glConfig.stencilBits =
        (candidateAt 5).stencilbits ∧
      (GLimp_Init nativeCfg (acceptAt 5) parms0 State.initial).2.1.glConfig.displayFrequency = 0 ∧
      candidateAt 0 = ⟨24, 24, 8⟩ :=
  GLimp_Init_accepted_at nativeCfg (acceptAt 5) parms0 State.initial 5 (by decide)
    (fun j hj => by simp [acceptAt]; omega) (by simp [acceptAt])

/-- C3 as stated fails: after an `Init` that succeeds and a second `Init`
during which the host rejects all 16 candidates, the context handle is
non-null and the window handle is null. -/
theorem contextHasWindow_fails_on_second_Init :
    (run nativeCfg [(acceptAt 0, .Init parms0), (rejectAll, .Init parms0)]
        State.initial).context = 2 ∧
      (run nativeCfg [(acceptAt 0, .Init parms0), (rejectAll, .Init parms0)]
        State.initial).window = 0 ∧
      ¬ ContextHasWindow
        (run nativeCfg [(acceptAt 0, .Init parms0), (rejectAll, .Init parms0)]
          State.initial) := by
  refine ⟨by decide, by decide, ?_⟩
  intro hinv
  exact hinv (by decide) (by decide)

/-- C3, amended: in every state reached from the initial state by a sequence
of `Init`, `SetScreenParms`, `Shutdown`, `SwapBuffers`, `SetGamma` and
`GrabInput` calls in which every `Init` is entered with a null context
handle, under any host behaviour, a non-null context handle implies a
non-null window handle. -/
theorem contextHasWindow_reachable (c : Cfg) (l : List (Host × Call))
    (hfresh : InitOnFreshContext c l State.initial) :
    ContextHasWindow (run c l State.initial) :=
  run_contextHasWindow c l State.initial (fun hne => absurd rfl hne) hfresh

/-- Witness of C3, amended: `Init`, `GrabInput`, `Shutdown`, then an `Init`
the host rejects. -/
theorem contextHasWindow_reachable_witness :
    InitOnFreshContext nativeCfg
        [(acceptAt 0, .Init parms0), (acceptAt 0, .GrabInput 13), (acceptAt 0, .Shutdown),
          (rejectAll, .Init parms0)] State.initial ∧
      ContextHasWindow
        (run nativeCfg
          [(acceptAt 0, .Init parms0), (acceptAt 0, .GrabInput 13), (acceptAt 0, .Shutdown),
            (rejectAll, .Init parms0)] State.initial) :=
  ⟨by simp only [InitOnFreshContext]; decide,
    contextHasWindow_reachable nativeCfg _ (by simp only [InitOnFreshContext]; decide)⟩

/-- C4: `GLimp_Shutdown` is idempotent. From every state, after one call
both handles are null; a second call leaves the state unchanged, only prints
the shutdown message and issues no host destroy call; when both handles are
non-null the first call deletes the context and then destroys the window. -/
theorem GLimp_Shutdown_idempotent (s : State) :
    (GLimp_Shutdown s).1.window = 0 ∧
      (GLimp_Shutdown s).1.context = 0 ∧
      (GLimp_Shutdown (GLimp_Shutdown s).1).1 = (GLimp_Shutdown s).1 ∧
      (GLimp_Shutdown (GLimp_Shutdown s).1).2 = [.printf .shuttingDown] ∧
      (∀ e ∈ (GLimp_Shutdown (GLimp_Shutdown s).1).2, e.isDestroy = false) ∧
      (s.context ≠ 0 → s.window ≠ 0 →
        (GLimp_Shutdown s).2 =
          [.printf .shuttingDown, .SDL_GL_DeleteContext s.context, .SDL_DestroyWindow s.window]) := by
  have hw : (GLimp_Shutdown s).1.window = 0 := by
    simp only [GLimp_Shutdown]
    split <;> split <;> simp_all
  have hc : (GLimp_Shutdown s).1.context = 0 := by
    simp only [GLimp_Shutdown]
    split <;> split <;> simp_all
  have h2 : ∀ t : State, t.window = 0 → t.context = 0 →
      GLimp_Shutdown t = (t, [.printf .shuttingDown]) := by
    intro t h1 h2
    simp [GLimp_Shutdown, h1, h2]
  refine ⟨hw, hc, ?_, ?_, ?_, ?_⟩
  · rw [h2 _ hw hc]
  · rw [h2 _ hw hc]
  · rw [h2 _ hw hc]
    intro e he
    simp only [List.mem_singleton] at he
    subst he
    rfl
  · intro h1 h3
    simp [GLimp_Shutdown, h1, h3]

/-- Witness of C4: shutting down a live window and context. -/
theorem GLimp_Shutdown_idempotent_witness :
    (live true).context ≠ 0 ∧ (live true).window ≠ 0 ∧
      (GLimp_Shutdown (live true)).2 =
        [.printf .shuttingDown, .SDL_GL_DeleteContext 2, .SDL_DestroyWindow 1] :=
  ⟨by decide, by decide,
    (GLimp_Shutdown_idempotent (live true)).2.2.2.2.2 (by decide) (by decide)⟩

/-- C5 as stated fails: attempt 1 asks for 0 stencil bits and attempt 2 for 8
again, so the derived triple is not non-increasing from index 1 to index 2. -/
theorem candidateAt_not_monotone :
    1 ≤ 2 ∧ 2 ≤ 15 ∧ candidateAt 1 = ⟨24, 24, 0⟩ ∧ candidateAt 2 = ⟨24, 16, 8⟩ ∧
      ¬ Bits.le (candidateAt 2) (candidateAt 1) := by
  decide

/-- C5, amended: for candidate indices `i ≤ j ≤ 15`, the baseline triple in
force at attempt `j` is component-wise at most the baseline at attempt `i`;
when `i` and `j` select the same per-attempt reduction (`i % 4 = j % 4`) the
derived triple of attempt `j` is component-wise at most that of attempt `i`;
every derived triple is at most the triple at index 0, in particular the one
at index 15. -/
theorem candidateAt_monotone (i j : Nat) (hij : i ≤ j) (hj : j ≤ 15) :
    Bits.le (baselineAt j) (baselineAt i) ∧
      (i % 4 = j % 4 → Bits.le (candidateAt j) (candidateAt i)) ∧
      Bits.le (candidateAt j) (candidateAt 0) ∧
      Bits.le (candidateAt 15) (candidateAt 0) := by
  have key : ∀ b : Fin 16, ∀ a : Fin 16, a.val ≤ b.val →
      Bits.le (baselineAt b.val) (baselineAt a.val) ∧
        (a.val % 4 = b.val % 4 → Bits.le (candidateAt b.val) (candidateAt a.val)) ∧
        Bits.le (candidateAt b.val) (candidateAt 0) ∧
        Bits.le (candidateAt 15) (candidateAt 0) := by
    decide
  exact key ⟨j, by omega⟩ ⟨i, by omega⟩ hij

/-- Witness of C5, amended: attempts 2 and 6. -/
theorem candidateAt_monotone_witness :
    Bits.le (baselineAt 6) (baselineAt 2) ∧
      (2 % 4 = 6 % 4 → Bits.le (candidateAt 6) (candidateAt 2)) ∧
      Bits.le (candidateAt 6) (candidateAt 0) ∧
      Bits.le (candidateAt 15) (candidateAt 0) :=
  candidateAt_monotone 2 6 (by decide) (by decide)

/-- C6 on the code: the baselines in force just before and on entering
indices 4, 8 and 12. Entering index 4 leaves the color baseline at 24 and
lowers the depth baseline to 16, entering index 8 lowers the color baseline
to 16 and leaves the depth baseline at 16, entering index 12 leaves the
stencil baseline at 8; an `Init` whose first accepted candidate is 4, 8 or 12
records exactly those baselines. -/
theorem baseline_order_on_code :
    baselineAt 3 = ⟨24, 24, 8⟩ ∧ baselineAt 4 = ⟨24, 16, 8⟩ ∧
      baselineAt 7 = ⟨24, 16, 8⟩ ∧ baselineAt 8 = ⟨16, 16, 8⟩ ∧
      baselineAt 11 = ⟨16, 16, 8⟩ ∧ baselineAt 12 = ⟨16, 16, 8⟩ ∧
      ¬ ((baselineAt 4).colorbits < (baselineAt 3).colorbits) ∧
      ¬ ((baselineAt 8).depthbits < (baselineAt 7).depthbits) ∧
      ¬ ((baselineAt 12).stencilbits < (baselineAt 11).stencilbits) ∧
      ((GLimp_Init wasmCfg (acceptAt 4) parms0 State.initial).2.1.glConfig.colorBits = 24 ∧
        (GLimp_Init wasmCfg (acceptAt 4) parms0 State.initial).2.1.glConfig.depthBits = 16 ∧
        (GLimp_Init wasmCfg (acceptAt 4) parms0 State.initial).2.1.glConfig.stencilBits = 8) ∧
      ((GLimp_Init wasmCfg (acceptAt 8) parms0 State.initial).2.1.glConfig.colorBits = 16 ∧
        (GLimp_Init wasmCfg (acceptAt 8) parms0 State.initial).2.1.glConfig.depthBits = 16 ∧
        (GLimp_Init wasmCfg (acceptAt 8) parms0 State.initial).2.1.glConfig.stencilBits = 8) ∧
      ((GLimp_Init wasmCfg (acceptAt 12) parms0 State.initial).2.1.glConfig.colorBits = 16 ∧
        (GLimp_Init wasmCfg (acceptAt 12) parms0 State.initial).2.1.glConfig.depthBits = 16 ∧
        (GLimp_Init wasmCfg (acceptAt 12) parms0 State.initial).2.1.glConfig.stencilBits = 8) := by
  decide

/-- C7 as stated fails: with `GRAB_ENABLE | GRAB_REENABLE`, a live window, the
no-grab override off and the tracked state true, the host window-grab call
receives false, and no call receives true. -/
theorem GLimp_GrabInput_reenable_not_grab :
    (3 &&& stdConsts.GRAB_ENABLE ≠ 0) ∧ (3 &&& stdConsts.GRAB_REENABLE ≠ 0) ∧
      (live true).window ≠ 0 ∧ (acceptAt 0).in_nograb = false ∧ (live true).grabbed = true ∧
      (GLimp_GrabInput wasmCfg (acceptAt 0) 3 (live true)).2 =
        [.SDL_ShowCursor true, .SDL_SetRelativeMouseMode false, .SDL_SetWindowGrab 1 false] ∧
      Event.SDL_SetWindowGrab 1 true ∉ (GLimp_GrabInput wasmCfg (acceptAt 0) 3 (live true)).2 := by
  decide

/-- C7, amended: for every flags value with `GRAB_REENABLE` set together with
`GRAB_ENABLE`, when a window exists, `GLimp_GrabInput` passes false (do not
grab) to the host window-grab call and turns relative mouse mode off,
whatever the no-grab override and the tracked grabbed state. -/
theorem GLimp_GrabInput_reenable (c : Cfg) (h : Host) (flags : Nat) (s : State)
    (hen : flags &&& c.consts.GRAB_ENABLE ≠ 0) (hre : flags &&& c.consts.GRAB_REENABLE ≠ 0)
    (hw : s.window ≠ 0) :
    (GLimp_GrabInput c h flags s).2 =
      [ .SDL_ShowCursor (!decide (flags &&& c.consts.GRAB_HIDECURSOR ≠ 0)),
        .SDL_SetRelativeMouseMode false,
        .SDL_SetWindowGrab s.window false ] := by
  have hr : requestedGrab c flags = false := by simp [requestedGrab, hen, hre]
  simp only [GLimp_GrabInput, hr]
  split <;> simp [hw]

/-- Witness of C7, amended: flags `GRAB_ENABLE | GRAB_REENABLE | GRAB_HIDECURSOR`
with the tracked state true and the override off. -/
theorem GLimp_GrabInput_reenable_witness :
    (GLimp_GrabInput wasmCfg (acceptAt 0) 7 (live true)).2 =
      [ .SDL_ShowCursor (!decide (7 &&& wasmCfg.consts.GRAB_HIDECURSOR ≠ 0)),
        .SDL_SetRelativeMouseMode false,
        .SDL_SetWindowGrab (live true).window false ] :=
  GLimp_GrabInput_reenable wasmCfg (acceptAt 0) 7 (live true) (by decide) (by decide) (by decide)

/-- C8: for every flags value, when a window exists and the no-grab override
`in_nograb` is on, `GLimp_GrabInput` passes false (do not grab) to the host
window-grab call and turns relative mouse mode off. -/
theorem GLimp_GrabInput_nograb (c : Cfg) (h : Host) (flags : Nat) (s : State)
    (hw : s.window ≠ 0) (hng : h.in_nograb = true) :
    (GLimp_GrabInput c h flags s).2 =
      [ .SDL_ShowCursor (!decide (flags &&& c.consts.GRAB_HIDECURSOR ≠ 0)),
        .SDL_SetRelativeMouseMode false,
        .SDL_SetWindowGrab s.window false ] := by
  simp only [GLimp_GrabInput, hng, if_true]
  split <;> simp [hw]

/-- Witness of C8: flags `GRAB_ENABLE | GRAB_HIDECURSOR | GRAB_SETSTATE`. -/
theorem GLimp_GrabInput_nograb_witness :
    (GLimp_GrabInput wasmCfg noGrab 13 (live false)).2 =
      [ .SDL_ShowCursor (!decide (13 &&& wasmCfg.consts.GRAB_HIDECURSOR ≠ 0)),
        .SDL_SetRelativeMouseMode false,
        .SDL_SetWindowGrab (live false).window false ] :=
  GLimp_GrabInput_nograb wasmCfg noGrab 13 (live false) (by decide) rfl

/-- C9 as stated fails: with no window, `GRAB_ENABLE | GRAB_SETSTATE` turns
the tracked grabbed state from false to true. -/
theorem GLimp_GrabInput_no_window_sets_state :
    State.initial.window = 0 ∧ State.initial.grabbed = false ∧
      (GLimp_GrabInput wasmCfg (acceptAt 0) 9 State.initial).1.grabbed = true := by
  decide

/-- C9, amended: when no window exists, for every flags value and prior
tracked state, `GLimp_GrabInput` makes no host call and logs one warning,
leaves the window handle, the context handle and `glConfig` unchanged, and
leaves the tracked grabbed state unchanged unless `GRAB_SETSTATE` is set, in
which case the tracked state becomes (ENABLE set and REENABLE clear);
`GLimp_SetGamma` with no window makes no host call, logs one warning and
changes no state. -/
theorem no_window_GrabInput_SetGamma (c : Cfg) (h : Host) (flags : Nat)
    (red green blue : List Nat) (s : State) (hw : s.window = 0) :
    (GLimp_GrabInput c h flags s).2 = [.warning .grabInputNoWindow] ∧
      (∀ e ∈ (GLimp_GrabInput c h flags s).2, e.isHostCall = false) ∧
      (GLimp_GrabInput c h flags s).2.countP Event.isWarning = 1 ∧
      (GLimp_GrabInput c h flags s).1.window = s.window ∧
      (GLimp_GrabInput c h flags s).1.context = s.context ∧
      (GLimp_GrabInput c h flags s).1.glConfig = s.glConfig ∧
      (GLimp_GrabInput c h flags s).1.grabbed =
        (if flags &&& c.consts.GRAB_SETSTATE ≠ 0 then
          (decide (flags &&& c.consts.GRAB_ENABLE ≠ 0) &&
            decide (flags &&& c.consts.GRAB_REENABLE = 0))
        else s.grabbed) ∧
      GLimp_SetGamma c h red green blue s = (s, [.warning .setGammaNoWindow]) := by
  have hr : requestedGrab c flags =
      (decide (flags &&& c.consts.GRAB_ENABLE ≠ 0) &&
        decide (flags &&& c.consts.GRAB_REENABLE = 0)) := by
    simp only [requestedGrab]
    by_cases h1 : flags &&& c.consts.GRAB_ENABLE = 0 <;>
      by_cases h2 : flags &&& c.consts.GRAB_REENABLE = 0 <;> simp [h1, h2]
  have hev : (GLimp_GrabInput c h flags s).2 = [.warning .grabInputNoWindow] := by
    simp only [GLimp_GrabInput]
    split <;> simp [hw]
  refine ⟨hev, ?_, ?_, ?_, ?_, ?_, ?_, ?_⟩
  · rw [hev]
    intro e he
    simp only [List.mem_singleton] at he
    subst he
    rfl
  · rw [hev]
    rfl
  · simp only [GLimp_GrabInput]
    split <;> simp [hw]
  · simp only [GLimp_GrabInput]
    split <;> simp [hw]
  · simp only [GLimp_GrabInput]
    split <;> simp [hw]
  · simp only [GLimp_GrabInput, hr]
    split <;> simp [hw]
  · simp [GLimp_SetGamma, hw]

/-- Witness of C9, amended: flags `GRAB_ENABLE | GRAB_SETSTATE` on the
initial state. -/
theorem no_window_GrabInput_SetGamma_witness :
    (GLimp_GrabInput nativeCfg (acceptAt 0) 9 State.initial).2 = [.warning .grabInputNoWindow] ∧
      (∀ e ∈ (GLimp_GrabInput nativeCfg (acceptAt 0) 9 State.initial).2, e.isHostCall = false) ∧
      (GLimp_GrabInput nativeCfg (acceptAt 0) 9 State.initial).2.countP Event.isWarning = 1 ∧
      (GLimp_GrabInput nativeCfg (acceptAt 0) 9 State.initial).1.window = State.initial.window ∧
      (GLimp_GrabInput nativeCfg (acceptAt 0) 9 State.initial).1.context =
        State.initial.context ∧
      (GLimp_GrabInput nativeCfg (acceptAt 0) 9 State.initial).1.glConfig =
        State.initial.glConfig ∧
      (GLimp_GrabInput nativeCfg (acceptAt 0) 9 State.initial).1.grabbed =
        (if 9 &&& nativeCfg.consts.GRAB_SETSTATE ≠ 0 then
          (decide (9 &&& nativeCfg.consts.GRAB_ENABLE ≠ 0) &&
            decide (9 &&& nativeCfg.consts.GRAB_REENABLE = 0))
        else State.initial.grabbed) ∧
      GLimp_SetGamma nativeCfg (acceptAt 0) [] [] [] State.initial =
        (State.initial, [.warning .setGammaNoWindow]) :=
  no_window_GrabInput_SetGamma nativeCfg (acceptAt 0) 9 [] [] [] State.initial rfl

/-- C10 on the code: when the host creates the window of candidate 0 but
`SDL_GL_CreateContext` returns null, `GLimp_Init`, called with both handles
null, returns true with a non-null window handle and a null context handle. -/
theorem GLimp_Init_true_with_null_context :
    State.initial.window = 0 ∧ State.initial.context = 0 ∧
      (GLimp_Init wasmCfg noContext parms0 State.initial).1 = true ∧
      (GLimp_Init wasmCfg noContext parms0 State.initial).2.1.window = 1 ∧
      (GLimp_Init wasmCfg noContext parms0 State.initial).2.1.context = 0 := by
  decide

end GLimp
